import Mathlib

/-!
Verification of the A2C update core of `src/algorithms/a2c.cpp` (cpprl).

Tensors are modelled as nested lists of rationals, the first index being the
timestep and the second the process, matching the `(num_steps, num_processes, ...)`
layout of the source.  Autograd is modelled in forward mode: every scalar the
policy produces is a dual number carrying its value together with its derivative
with respect to the policy parameter, and the arithmetic of the update
propagates both components exactly as the corresponding torch operations do.
`detach` erases the derivative component, which is precisely torch's semantics.
-/

namespace CppRl

/-- Forward-mode dual number: the value a scalar tensor holds together with its
derivative with respect to the policy parameter (the sensitivity autograd
backpropagates). -/
structure Dual where
  val : ℚ
  grad : ℚ
  deriving DecidableEq, Repr

/-- A tensor entry that does not depend on the policy parameter (data read from
storage): derivative zero. -/
def Dual.ofConst (q : ℚ) : Dual := ⟨q, 0⟩

def Dual.add (a b : Dual) : Dual := ⟨a.val + b.val, a.grad + b.grad⟩

def Dual.sub (a b : Dual) : Dual := ⟨a.val - b.val, a.grad - b.grad⟩

def Dual.mul (a b : Dual) : Dual := ⟨a.val * b.val, a.val * b.grad + a.grad * b.val⟩

def Dual.neg (a : Dual) : Dual := ⟨-a.val, -a.grad⟩

/-- torch `detach`: same value, no gradient path. -/
def Dual.detach (a : Dual) : Dual := ⟨a.val, 0⟩

instance : Add Dual := ⟨Dual.add⟩

instance : Sub Dual := ⟨Dual.sub⟩

instance : Mul Dual := ⟨Dual.mul⟩

instance : Neg Dual := ⟨Dual.neg⟩

lemma Dual.add_def (a b : Dual) :
    a + b = ⟨a.val + b.val, a.grad + b.grad⟩ :=
  rfl

lemma Dual.sub_def (a b : Dual) :
    a - b = ⟨a.val - b.val, a.grad - b.grad⟩ :=
  rfl

lemma Dual.mul_def (a b : Dual) :
    a * b = ⟨a.val * b.val, a.val * b.grad + a.grad * b.val⟩ :=
  rfl

lemma Dual.neg_def (a : Dual) : -a = ⟨-a.val, -a.grad⟩ :=
  rfl

/-- torch `pow(2)`, elementwise square. -/
def Dual.pow2 (a : Dual) : Dual := a * a

def Dual.sum (l : List Dual) : Dual := l.foldr Dual.add ⟨0, 0⟩

/-- torch `mean()` over all elements of a tensor. -/
def Dual.mean (l : List Dual) : Dual :=
  ⟨(Dual.sum l).val / (l.length : ℚ), (Dual.sum l).grad / (l.length : ℚ)⟩

/-- torch `view(n, p, 1)` applied to a flat batch of `n * p` scalars: `n` rows of
`p` entries each. -/
def view2 {α : Type} (n p : Nat) (l : List α) : List (List α) :=
  match n with
  | 0 => []
  | Nat.succ m => l.take p :: view2 m p (l.drop p)

/-- The tensors of `RolloutStorage` that `A2C::update` reads through its
accessors.  The first index is the timestep, the second the process:
`observations` and `hidden_states` have `num_steps + 1` timestep slots of
`num_processes` vectors each; `actions` has `num_steps` slots of action
vectors; `rewards`, `masks`, `returns` hold one rational per process per slot,
with `masks` and `returns` having `num_steps + 1` slots. -/
structure RolloutStorage where
  observations : List (List (List ℚ))
  hidden_states : List (List (List ℚ))
  actions : List (List (List ℚ))
  rewards : List (List ℚ)
  masks : List (List ℚ)
  returns : List (List ℚ)
  deriving DecidableEq

/-- Result of `Policy::evaluate_actions` on the flattened batch: per-row value
estimates, per-row action log-probabilities, and one scalar entropy. -/
structure EvalResult where
  values : List Dual
  action_log_probs : List Dual
  entropy : Dual
  deriving DecidableEq

/-- The policy capability, external to the algorithm: given the current policy
parameter and the flattened observation, hidden-state, mask and action batches,
it returns the evaluation result (with derivatives with respect to the
parameter). -/
def Policy : Type :=
  ℚ → List (List ℚ) → List (List ℚ) → List ℚ → List (List ℚ) → EvalResult

/-- `torch::optim::RMSpropOptions(learning_rate).eps(epsilon).alpha(alpha)`. -/
structure RMSpropOptions where
  learning_rate : ℚ
  eps : ℚ
  alpha : ℚ
  deriving DecidableEq

/-- The fields the `A2C::A2C` constructor stores (a2c.cpp:22-30): the loss
coefficients, the clipping threshold, and the optimizer it builds.  The policy
reference is passed to `A2C.update` explicitly. -/
structure A2C where
  value_loss_coef : ℚ
  entropy_coef : ℚ
  max_grad_norm : ℚ
  optimizer_options : RMSpropOptions
  deriving DecidableEq

/-- `A2C::A2C(policy, value_loss_coef, entropy_coef, learning_rate, epsilon,
alpha, max_grad_norm)` (a2c.cpp:15-30): stores the two coefficients and
`max_grad_norm`, and constructs the RMSprop optimizer from the remaining three
parameters. -/
def A2C.construct (value_loss_coef entropy_coef learning_rate epsilon alpha
    max_grad_norm : ℚ) : A2C :=
  ⟨value_loss_coef, entropy_coef, max_grad_norm, ⟨learning_rate, epsilon, alpha⟩⟩

/-- Mutable state the update step drives: the policy parameter and the
optimizer's internal state. -/
structure A2CState where
  theta : ℚ
  opt_state : ℚ
  deriving DecidableEq

/-- The optimizer's update rule (external capability, spec section 2): given
parameter, gradient and internal state it yields the new parameter and state. -/
def OptimRule : Type := ℚ → ℚ → ℚ → ℚ × ℚ

/-- Probe rule that stores the gradient it was handed as the new parameter,
used to observe which gradient reaches `optimizer->step()`. -/
def probeRule : OptimRule := fun _theta grad opt_state => (grad, opt_state)

/-- The intermediate tensors of one `A2C::update` call. -/
structure UpdateTrace where
  evaluate_result : EvalResult
  values : List (List Dual)
  action_log_probs : List (List Dual)
  advantages : List (List Dual)
  value_loss : Dual
  action_loss : Dual
  loss : Dual
  deriving DecidableEq

/-- Transcription of `A2C::update` (a2c.cpp:32-62) up to the loss:
`num_steps` and `num_processes` come from the rewards shape (lines 39-41);
`evaluate_actions` is called on the non-bootstrap observations and masks
flattened to a single batch, hidden-state slot 0 (whose `view(-1, hidden_size)`
is an identity reshape of the `(num_processes, hidden_size)` slot), and the
flattened actions (lines 43-47); the outputs are viewed back to
`(num_steps, num_processes, 1)` (lines 49-51); then advantages, value loss,
action loss and the total loss follow lines 53-61. -/
def A2C.trace (alg : A2C) (policy : Policy) (s : A2CState)
    (rollouts : RolloutStorage) : UpdateTrace :=
  let num_steps := rollouts.rewards.length
  let num_processes := rollouts.rewards.headI.length
  let evaluate_result :=
    policy s.theta
      rollouts.observations.dropLast.flatten
      rollouts.hidden_states.headI
      rollouts.masks.dropLast.flatten
      rollouts.actions.flatten
  let values := view2 num_steps num_processes evaluate_result.values
  let action_log_probs :=
    view2 num_steps num_processes evaluate_result.action_log_probs
  let advantages :=
    List.zipWith
      (fun retRow valRow =>
        List.zipWith (fun r v => Dual.ofConst r - v) retRow valRow)
      rollouts.returns.dropLast values
  let value_loss := Dual.mean (advantages.flatten.map Dual.pow2)
  let action_loss :=
    Dual.neg (Dual.mean (List.zipWith (fun a l => a.detach * l)
      advantages.flatten action_log_probs.flatten))
  let loss := value_loss * Dual.ofConst alg.value_loss_coef + action_loss -
    evaluate_result.entropy * Dual.ofConst alg.entropy_coef
  ⟨evaluate_result, values, action_log_probs, advantages, value_loss,
    action_loss, loss⟩

/-- Transcription of `A2C::update` (a2c.cpp:32-69): compute the loss,
`zero_grad`, `backward`, `step` (lines 58-64, with no operation between
`backward` and `step`), and return the three named diagnostics (lines 66-68).
The `RolloutStorage` reference is returned as the call leaves it. -/
def A2C.update (alg : A2C) (policy : Policy) (rule : OptimRule) (s : A2CState)
    (rollouts : RolloutStorage) :
    A2CState × RolloutStorage × List (String × ℚ) :=
  let t := A2C.trace alg policy s rollouts
  let stepped := rule s.theta t.loss.grad s.opt_state
  (⟨stepped.1, stepped.2⟩, rollouts,
    [("Value loss", t.value_loss.val),
     ("Action loss", t.action_loss.val),
     ("Entropy", t.evaluate_result.entropy.val)])

/-! ### Indexing lemmas for the flatten / view round trip -/

lemma view2_length {α : Type} (p : Nat) :
    ∀ (n : Nat) (l : List α), (view2 n p l).length = n
  | 0, _ => rfl
  | Nat.succ m, l => by simp [view2, view2_length p m]

lemma view2_getElem? {α : Type} (p : Nat) :
    ∀ (n t : Nat) (l : List α), t < n →
      (view2 n p l)[t]? = some ((l.drop (t * p)).take p)
  | 0, t, _, ht => absurd ht (Nat.not_lt_zero t)
  | Nat.succ m, 0, l, _ => by simp [view2]
  | Nat.succ m, Nat.succ t, l, ht => by
      have ih := view2_getElem? p m t (l.drop p) (Nat.lt_of_succ_lt_succ ht)
      simp only [view2, List.getElem?_cons_succ, ih, List.drop_drop]
      have harith : p + t * p = Nat.succ t * p := by
        rw [Nat.succ_mul, Nat.add_comm]
      rw [harith]

lemma view2_getD {α : Type} {n p t q : Nat} (l : List α) (ht : t < n) (hq : q < p)
    (d : α) :
    ((view2 n p l).getD t []).getD q d = l.getD (t * p + q) d := by
  have hrow : (view2 n p l).getD t [] = (l.drop (t * p)).take p := by
    rw [List.getD_eq_getElem?_getD, view2_getElem? p n t l ht]
    rfl
  rw [hrow, List.getD_eq_getElem?_getD, List.getElem?_take_of_lt hq,
    List.getElem?_drop, ← List.getD_eq_getElem?_getD]

lemma view2_map {α β : Type} (f : α → β) (p : Nat) :
    ∀ (n : Nat) (l : List α),
      view2 n p (l.map f) = (view2 n p l).map (List.map f)
  | 0, _ => rfl
  | Nat.succ m, l => by
      simp only [view2, List.map_cons, ← List.map_drop, ← List.map_take,
        view2_map f p m]

lemma flatten_getElem? {α : Type} (p : Nat) :
    ∀ (xs : List (List α)) (t q : Nat), (∀ r ∈ xs, r.length = p) →
      t < xs.length → q < p →
      xs.flatten[t * p + q]? = (xs.getD t [])[q]?
  | [], t, _, _, ht, _ => absurd ht (Nat.not_lt_zero t)
  | r :: rs, 0, q, hrows, _, hq => by
      have hr : r.length = p := hrows r (List.mem_cons_self r rs)
      simp only [List.flatten_cons, Nat.zero_mul, Nat.zero_add, List.getD]
      rw [List.getElem?_append_left (by rw [hr]; exact hq)]
      rfl
  | r :: rs, Nat.succ t, q, hrows, ht, hq => by
      have hr : r.length = p := hrows r (List.mem_cons_self r rs)
      have ih := flatten_getElem? p rs t q
        (fun s hs => hrows s (List.mem_cons_of_mem r hs))
        (Nat.lt_of_succ_lt_succ ht) hq
      have harith : Nat.succ t * p + q = r.length + (t * p + q) := by
        rw [hr, Nat.succ_mul]; omega
      simp only [List.flatten_cons, harith]
      rw [List.getElem?_append_right (Nat.le_add_right _ _), Nat.add_sub_cancel_left]
      simpa using ih

lemma flatten_getD {α : Type} {p t q : Nat} (xs : List (List α))
    (hrows : ∀ r ∈ xs, r.length = p) (ht : t < xs.length) (hq : q < p) (d : α) :
    xs.flatten.getD (t * p + q) d = (xs.getD t []).getD q d := by
  rw [List.getD_eq_getElem?_getD, flatten_getElem? p xs t q hrows ht hq,
    ← List.getD_eq_getElem?_getD]

lemma zipWith_getD {α β γ : Type} (f : α → β → γ) (xs : List α) (ys : List β)
    {t : Nat} (hx : t < xs.length) (hy : t < ys.length) (d : γ) (dx : α) (dy : β) :
    (List.zipWith f xs ys).getD t d = f (xs.getD t dx) (ys.getD t dy) := by
  rw [List.getD_eq_getElem?_getD, List.getElem?_zipWith',
    List.getElem?_eq_getElem hx, List.getElem?_eq_getElem hy,
    List.getD_eq_getElem xs dx hx, List.getD_eq_getElem ys dy hy]
  rfl

lemma dropLast_getD {α : Type} (xs : List α) {t : Nat} (ht : t < xs.length - 1)
    (d : α) : xs.dropLast.getD t d = xs.getD t d := by
  rw [List.getD_eq_getElem?_getD, List.getElem?_dropLast, if_pos ht,
    ← List.getD_eq_getElem?_getD]

lemma Dual.sum_val (l : List Dual) : (Dual.sum l).val = (l.map Dual.val).sum := by
  induction l with
  | nil => rfl
  | cons a l ih =>
      show (Dual.add a (Dual.sum l)).val = _
      simp [Dual.add, List.map_cons, List.sum_cons, ih]

lemma view2_row_length {α : Type} {n p t : Nat} (l : List α) (ht : t < n)
    (hl : l.length = n * p) : ((view2 n p l).getD t []).length = p := by
  have hrow : (view2 n p l).getD t [] = (l.drop (t * p)).take p := by
    rw [List.getD_eq_getElem?_getD, view2_getElem? p n t l ht]
    rfl
  have h2 : t * p + p ≤ n * p := by
    rw [← Nat.succ_mul]
    exact Nat.mul_le_mul_right p (Nat.succ_le_of_lt ht)
  rw [hrow, List.length_take, List.length_drop, hl]
  omega

lemma getD_mem {α : Type} (l : List α) {t : Nat} (ht : t < l.length) (d : α) :
    l.getD t d ∈ l := by
  rw [List.getD_eq_getElem l d ht]
  exact List.getElem_mem ht

lemma trace_evaluate_result (alg : A2C) (policy : Policy) (s : A2CState)
    (ro : RolloutStorage) :
    (A2C.trace alg policy s ro).evaluate_result =
      policy s.theta ro.observations.dropLast.flatten ro.hidden_states.headI
        ro.masks.dropLast.flatten ro.actions.flatten :=
  rfl

lemma trace_values (alg : A2C) (policy : Policy) (s : A2CState)
    (ro : RolloutStorage) :
    (A2C.trace alg policy s ro).values =
      view2 ro.rewards.length ro.rewards.headI.length
        (A2C.trace alg policy s ro).evaluate_result.values :=
  rfl

lemma trace_action_log_probs (alg : A2C) (policy : Policy) (s : A2CState)
    (ro : RolloutStorage) :
    (A2C.trace alg policy s ro).action_log_probs =
      view2 ro.rewards.length ro.rewards.headI.length
        (A2C.trace alg policy s ro).evaluate_result.action_log_probs :=
  rfl

lemma trace_advantages (alg : A2C) (policy : Policy) (s : A2CState)
    (ro : RolloutStorage) :
    (A2C.trace alg policy s ro).advantages =
      List.zipWith
        (fun retRow valRow =>
          List.zipWith (fun r v => Dual.ofConst r - v) retRow valRow)
        ro.returns.dropLast (A2C.trace alg policy s ro).values :=
  rfl

lemma trace_value_loss (alg : A2C) (policy : Policy) (s : A2CState)
    (ro : RolloutStorage) :
    (A2C.trace alg policy s ro).value_loss =
      Dual.mean
        ((A2C.trace alg policy s ro).advantages.flatten.map Dual.pow2) :=
  rfl

lemma trace_action_loss (alg : A2C) (policy : Policy) (s : A2CState)
    (ro : RolloutStorage) :
    (A2C.trace alg policy s ro).action_loss =
      Dual.neg (Dual.mean (List.zipWith (fun a l => a.detach * l)
        (A2C.trace alg policy s ro).advantages.flatten
        (A2C.trace alg policy s ro).action_log_probs.flatten)) :=
  rfl

lemma detach_const_sub (r : ℚ) (v : Dual) :
    (Dual.ofConst r - v).detach = Dual.ofConst (r - v.val) :=
  rfl

/-- The detached advantages depend on the policy's value estimates only
through their value components: the gradient components are erased. -/
lemma advantages_flatten_detach (alg : A2C) (policy : Policy) (s : A2CState)
    (ro : RolloutStorage) :
    (A2C.trace alg policy s ro).advantages.flatten.map Dual.detach =
      (List.zipWith
        (fun retRow vals =>
          List.zipWith (fun r x => Dual.ofConst (r - x)) retRow vals)
        ro.returns.dropLast
        (view2 ro.rewards.length ro.rewards.headI.length
          ((A2C.trace alg policy s ro).evaluate_result.values.map
            Dual.val))).flatten := by
  rw [List.map_flatten, trace_advantages, trace_values, view2_map]
  simp only [List.map_zipWith, List.zipWith_map_right, detach_const_sub]

lemma zipWith_detach_mul_eq {A1 A2 L1 L2 : List Dual}
    (hA : A1.map Dual.detach = A2.map Dual.detach) (hL : L1 = L2) :
    List.zipWith (fun a l => a.detach * l) A1 L1 =
      List.zipWith (fun a l => a.detach * l) A2 L2 := by
  subst hL
  induction A1 generalizing A2 L1 with
  | nil =>
      cases A2 with
      | nil => rfl
      | cons b bs => simp at hA
  | cons a as ih =>
      cases A2 with
      | nil => simp at hA
      | cons b bs =>
          simp only [List.map_cons, List.cons.injEq] at hA
          cases L1 with
          | nil => rfl
          | cons l ls =>
              simp only [List.zipWith_cons_cons]
              exact congrArg₂ List.cons (by rw [hA.1]) (ih hA.2)

/-! ### Claim theorems -/

/-- C2: in every call of `A2C::update` the scalar loss that is backpropagated
equals `value_loss * value_loss_coef + action_loss - entropy * entropy_coef`,
with exactly these signs and coefficient placements; the gradient that reaches
the optimizer step is the gradient of exactly this scalar. -/
theorem a2c_total_loss_composition (alg : A2C) (policy : Policy) (s : A2CState)
    (rollouts : RolloutStorage) :
    (A2C.trace alg policy s rollouts).loss =
      (A2C.trace alg policy s rollouts).value_loss *
          Dual.ofConst alg.value_loss_coef +
        (A2C.trace alg policy s rollouts).action_loss -
        (A2C.trace alg policy s rollouts).evaluate_result.entropy *
          Dual.ofConst alg.entropy_coef ∧
    (A2C.update alg policy probeRule s rollouts).1.theta =
      (A2C.trace alg policy s rollouts).loss.grad :=
  ⟨rfl, rfl⟩

/-- C6: every call of `A2C::update` returns exactly three named scalars with
the fixed labels "Value loss", "Action loss" and "Entropy", whose values are
the value loss, action loss and entropy scalars computed during that call. -/
theorem a2c_update_diagnostics (alg : A2C) (policy : Policy) (rule : OptimRule)
    (s : A2CState) (rollouts : RolloutStorage) :
    (A2C.update alg policy rule s rollouts).2.2 =
      [("Value loss", (A2C.trace alg policy s rollouts).value_loss.val),
       ("Action loss", (A2C.trace alg policy s rollouts).action_loss.val),
       ("Entropy",
        (A2C.trace alg policy s rollouts).evaluate_result.entropy.val)] :=
  rfl

/-- C7: `A2C::update` leaves every tensor of the rollout storage unchanged,
and its only state effect is the parameter/optimizer-state update produced by
the optimizer rule applied to the loss gradient. -/
theorem a2c_update_preserves_rollouts (alg : A2C) (policy : Policy)
    (rule : OptimRule) (s : A2CState) (rollouts : RolloutStorage) :
    (A2C.update alg policy rule s rollouts).2.1 = rollouts ∧
    (A2C.update alg policy rule s rollouts).1 =
      ⟨(rule s.theta (A2C.trace alg policy s rollouts).loss.grad s.opt_state).1,
       (rule s.theta (A2C.trace alg policy s rollouts).loss.grad
           s.opt_state).2⟩ :=
  ⟨rfl, rfl⟩

/-- C8: `A2C::update` is deterministic: two calls made from identical
policy-parameter/optimizer states and identical rollout storages return the
same three diagnostic scalars and leave the parameters in the same state. -/
theorem a2c_update_deterministic (alg : A2C) (policy : Policy)
    (rule : OptimRule) (s1 s2 : A2CState) (ro1 ro2 : RolloutStorage)
    (hs : s1 = s2) (hro : ro1 = ro2) :
    (A2C.update alg policy rule s1 ro1).2.2 =
        (A2C.update alg policy rule s2 ro2).2.2 ∧
      (A2C.update alg policy rule s1 ro1).1 =
        (A2C.update alg policy rule s2 ro2).1 := by
  subst hs
  subst hro
  exact ⟨rfl, rfl⟩

/-- C4: on a return-computed rollout the advantages equal
`returns[0 : num_steps] - values` elementwise (the bootstrap slot of `returns`
is excluded by the slice), and the value loss is the unweighted mean of the
squared advantages. -/
theorem a2c_advantages_and_value_loss (alg : A2C) (policy : Policy)
    (s : A2CState) (ro : RolloutStorage) (n p t q : Nat)
    (hn : ro.rewards.length = n) (hp : ro.rewards.headI.length = p)
    (hret : ro.returns.length = n + 1)
    (hretrow : ∀ r ∈ ro.returns, r.length = p)
    (hvals : (A2C.trace alg policy s ro).evaluate_result.values.length = n * p)
    (ht : t < n) (hq : q < p) :
    ((A2C.trace alg policy s ro).advantages.getD t []).getD q ⟨0, 0⟩ =
        Dual.ofConst ((ro.returns.getD t []).getD q 0) -
          ((A2C.trace alg policy s ro).values.getD t []).getD q ⟨0, 0⟩ ∧
      (A2C.trace alg policy s ro).value_loss =
        Dual.mean
          ((A2C.trace alg policy s ro).advantages.flatten.map Dual.pow2) ∧
      (A2C.trace alg policy s ro).value_loss.val =
        (((A2C.trace alg policy s ro).advantages.flatten.map
              (fun d => d.val * d.val)).sum) /
          (((A2C.trace alg policy s ro).advantages.flatten.length : ℚ)) := by
  have hV : (A2C.trace alg policy s ro).values =
      view2 n p (A2C.trace alg policy s ro).evaluate_result.values := by
    rw [trace_values, hn, hp]
  have hVlen : (A2C.trace alg policy s ro).values.length = n := by
    rw [hV, view2_length]
  have hRlen : ro.returns.dropLast.length = n := by
    rw [List.length_dropLast, hret]
    omega
  have hRrow : (ro.returns.dropLast.getD t []).length = p := by
    rw [dropLast_getD ro.returns (by omega) []]
    exact hretrow _ (getD_mem ro.returns (by omega) [])
  have hVrow : (((A2C.trace alg policy s ro).values).getD t []).length = p := by
    rw [hV]
    exact view2_row_length _ ht hvals
  constructor
  · rw [trace_advantages,
      zipWith_getD _ ro.returns.dropLast (A2C.trace alg policy s ro).values
        (by omega) (by omega) [] [] [],
      zipWith_getD (fun r v => Dual.ofConst r - v) (ro.returns.dropLast.getD t [])
        ((A2C.trace alg policy s ro).values.getD t []) (by omega) (by omega)
        ⟨0, 0⟩ 0 ⟨0, 0⟩,
      dropLast_getD ro.returns (by omega) []]
  constructor
  · exact trace_value_loss alg policy s ro
  · rw [trace_value_loss]
    show (Dual.sum ((A2C.trace alg policy s ro).advantages.flatten.map
        Dual.pow2)).val /
        ((((A2C.trace alg policy s ro).advantages.flatten.map
          Dual.pow2).length : ℚ)) = _
    rw [Dual.sum_val, List.map_map, List.length_map]
    rfl
/-- Concrete one-step, one-process rollout for C3: return 1 against value 0
gives a nonzero advantage. -/
def c3Ro : RolloutStorage :=
  ⟨[[[0]], [[0]]], [[[0]], [[0]]], [[[0]]], [[0]], [[1], [1]], [[1], [0]]⟩

/-- Concrete policy for C3 whose value estimate carries no gradient. -/
def c3PolA : Policy := fun _ _ _ _ _ => ⟨[⟨0, 0⟩], [⟨2, 3⟩], ⟨0, 0⟩⟩

/-- The C3 policy with the value estimate perturbed in its gradient component
only (the value branch now carries gradient 1); values and log-probabilities
are unchanged. -/
def c3PolB : Policy := fun _ _ _ _ _ => ⟨[⟨0, 1⟩], [⟨2, 3⟩], ⟨0, 0⟩⟩

/-- C3: the action loss is the negated mean of the elementwise product of the
gradient-detached advantages with the action log-probabilities, and it is
therefore a function of the value estimates' values only: any perturbation of
the value branch's gradients leaves the action loss (value and gradient)
unchanged, while — as the concrete perturbation `c3PolA`/`c3PolB` shows — the
same perturbation does change the value loss. -/
theorem a2c_action_loss_detach_correct (alg : A2C) (p1 p2 : Policy)
    (s : A2CState) (ro : RolloutStorage)
    (hval : (A2C.trace alg p1 s ro).evaluate_result.values.map Dual.val =
      (A2C.trace alg p2 s ro).evaluate_result.values.map Dual.val)
    (halp : (A2C.trace alg p1 s ro).evaluate_result.action_log_probs =
      (A2C.trace alg p2 s ro).evaluate_result.action_log_probs) :
    (A2C.trace alg p1 s ro).action_loss =
        Dual.neg (Dual.mean (List.zipWith (fun a l => a.detach * l)
          (A2C.trace alg p1 s ro).advantages.flatten
          (A2C.trace alg p1 s ro).action_log_probs.flatten)) ∧
      (A2C.trace alg p1 s ro).action_loss =
        (A2C.trace alg p2 s ro).action_loss ∧
      (A2C.trace (A2C.construct 1 0 0 0 0 0) c3PolA ⟨0, 0⟩ c3Ro).value_loss ≠
        (A2C.trace (A2C.construct 1 0 0 0 0 0) c3PolB ⟨0, 0⟩ c3Ro).value_loss ∧
      (A2C.trace (A2C.construct 1 0 0 0 0 0) c3PolA ⟨0, 0⟩ c3Ro).action_loss =
        (A2C.trace (A2C.construct 1 0 0 0 0 0) c3PolB ⟨0, 0⟩
            c3Ro).action_loss := by
  refine ⟨trace_action_loss alg p1 s ro, ?_,
    by norm_num [A2C.trace, c3Ro, c3PolA, c3PolB, A2C.construct, view2,
      List.headI, Dual.mean, Dual.sum, Dual.pow2, Dual.ofConst, Dual.detach,
      Dual.add_def, Dual.sub_def, Dual.mul_def, Dual.neg_def, Dual.neg,
      Dual.add, Dual.sub, Dual.mul],
    by norm_num [A2C.trace, c3Ro, c3PolA, c3PolB, A2C.construct, view2,
      List.headI, Dual.mean, Dual.sum, Dual.pow2, Dual.ofConst, Dual.detach,
      Dual.add_def, Dual.sub_def, Dual.mul_def, Dual.neg_def, Dual.neg,
      Dual.add, Dual.sub, Dual.mul]⟩
  have hA : (A2C.trace alg p1 s ro).advantages.flatten.map Dual.detach =
      (A2C.trace alg p2 s ro).advantages.flatten.map Dual.detach := by
    rw [advantages_flatten_detach, advantages_flatten_detach, hval]
  have hL : (A2C.trace alg p1 s ro).action_log_probs.flatten =
      (A2C.trace alg p2 s ro).action_log_probs.flatten := by
    rw [trace_action_log_probs, trace_action_log_probs, halp]
  rw [trace_action_loss, trace_action_loss]
  exact congrArg Dual.neg (congrArg Dual.mean (zipWith_detach_mul_eq hA hL))

/-- Witness for C3: the gradient-only perturbation `c3PolA` to `c3PolB`
satisfies the hypotheses, and the conclusion holds there. -/
theorem a2c_action_loss_detach_correct_witness :
    ((A2C.trace (A2C.construct 1 0 0 0 0 0) c3PolA ⟨0, 0⟩
          c3Ro).evaluate_result.values.map Dual.val =
        (A2C.trace (A2C.construct 1 0 0 0 0 0) c3PolB ⟨0, 0⟩
            c3Ro).evaluate_result.values.map Dual.val ∧
      (A2C.trace (A2C.construct 1 0 0 0 0 0) c3PolA ⟨0, 0⟩
          c3Ro).evaluate_result.action_log_probs =
        (A2C.trace (A2C.construct 1 0 0 0 0 0) c3PolB ⟨0, 0⟩
            c3Ro).evaluate_result.action_log_probs) ∧
    ((A2C.trace (A2C.construct 1 0 0 0 0 0) c3PolA ⟨0, 0⟩ c3Ro).action_loss =
        Dual.neg (Dual.mean (List.zipWith (fun a l => a.detach * l)
          (A2C.trace (A2C.construct 1 0 0 0 0 0) c3PolA ⟨0, 0⟩
            c3Ro).advantages.flatten
          (A2C.trace (A2C.construct 1 0 0 0 0 0) c3PolA ⟨0, 0⟩
            c3Ro).action_log_probs.flatten)) ∧
      (A2C.trace (A2C.construct 1 0 0 0 0 0) c3PolA ⟨0, 0⟩ c3Ro).action_loss =
        (A2C.trace (A2C.construct 1 0 0 0 0 0) c3PolB ⟨0, 0⟩ c3Ro).action_loss ∧
      (A2C.trace (A2C.construct 1 0 0 0 0 0) c3PolA ⟨0, 0⟩ c3Ro).value_loss ≠
        (A2C.trace (A2C.construct 1 0 0 0 0 0) c3PolB ⟨0, 0⟩ c3Ro).value_loss ∧
      (A2C.trace (A2C.construct 1 0 0 0 0 0) c3PolA ⟨0, 0⟩ c3Ro).action_loss =
        (A2C.trace (A2C.construct 1 0 0 0 0 0) c3PolB ⟨0, 0⟩
            c3Ro).action_loss) :=
  ⟨⟨by decide, by decide⟩,
    a2c_action_loss_detach_correct (A2C.construct 1 0 0 0 0 0) c3PolA c3PolB
      ⟨0, 0⟩ c3Ro (by decide) (by decide)⟩

/-- Concrete one-step, one-process rollout used to witness C4: one reward slot,
two return slots `[[1], [0]]`. -/
def c4Ro : RolloutStorage :=
  ⟨[[[0]], [[0]]], [[[0]], [[0]]], [[[0]]], [[0]], [[1], [1]], [[1], [0]]⟩

/-- Concrete policy used to witness C4: one value, one log-probability. -/
def c4Pol : Policy := fun _ _ _ _ _ => ⟨[⟨3, 1⟩], [⟨2, 5⟩], ⟨0, 0⟩⟩

/-- Witness for C4 at a concrete one-step, one-process rollout. -/
theorem a2c_advantages_and_value_loss_witness :
    (c4Ro.rewards.length = 1 ∧ c4Ro.rewards.headI.length = 1 ∧
        c4Ro.returns.length = 1 + 1 ∧ (∀ r ∈ c4Ro.returns, r.length = 1) ∧
        (A2C.trace (A2C.construct 1 0 0 0 0 0) c4Pol ⟨0, 0⟩
              c4Ro).evaluate_result.values.length = 1 * 1 ∧
        (0 : Nat) < 1) ∧
      (((A2C.trace (A2C.construct 1 0 0 0 0 0) c4Pol ⟨0, 0⟩
              c4Ro).advantages.getD 0 []).getD 0 ⟨0, 0⟩ =
          Dual.ofConst ((c4Ro.returns.getD 0 []).getD 0 0) -
            ((A2C.trace (A2C.construct 1 0 0 0 0 0) c4Pol ⟨0, 0⟩
                c4Ro).values.getD 0 []).getD 0 ⟨0, 0⟩ ∧
        (A2C.trace (A2C.construct 1 0 0 0 0 0) c4Pol ⟨0, 0⟩ c4Ro).value_loss =
          Dual.mean ((A2C.trace (A2C.construct 1 0 0 0 0 0) c4Pol ⟨0, 0⟩
              c4Ro).advantages.flatten.map Dual.pow2) ∧
        (A2C.trace (A2C.construct 1 0 0 0 0 0) c4Pol ⟨0, 0⟩
              c4Ro).value_loss.val =
          (((A2C.trace (A2C.construct 1 0 0 0 0 0) c4Pol ⟨0, 0⟩
                c4Ro).advantages.flatten.map (fun d => d.val * d.val)).sum) /
            (((A2C.trace (A2C.construct 1 0 0 0 0 0) c4Pol ⟨0, 0⟩
                c4Ro).advantages.flatten.length : ℚ))) :=
  ⟨⟨by decide, by decide, by decide, by decide, by decide, by decide⟩,
    a2c_advantages_and_value_loss (A2C.construct 1 0 0 0 0 0) c4Pol ⟨0, 0⟩
      c4Ro 1 1 0 0 (by decide) (by decide) (by decide) (by decide) (by decide)
      (by decide) (by decide)⟩

/-- C5: the flattened batch is in step-major, then process order — row
`t * num_processes + q` of the flattened observations, masks and actions is
the data of the transition at step `t` of process `q` — and viewing the
evaluation outputs back to `(num_steps, num_processes, 1)` places the batched
output for that row at entry `(t, q)`, recovering the original layout.  The
policy's batched evaluation is modelled as producing one output per row
(`fv`/`fl` indexed by the flattened row number). -/
theorem a2c_flatten_reshape_roundtrip (alg : A2C) (policy : Policy)
    (s : A2CState) (ro : RolloutStorage) (n p t q : Nat) (fv fl : Nat → Dual)
    (hn : ro.rewards.length = n) (hp : ro.rewards.headI.length = p)
    (hobs : ro.observations.length = n + 1)
    (hobsrow : ∀ r ∈ ro.observations.dropLast, r.length = p)
    (hmask : ro.masks.length = n + 1)
    (hmaskrow : ∀ r ∈ ro.masks.dropLast, r.length = p)
    (hact : ro.actions.length = n)
    (hactrow : ∀ r ∈ ro.actions, r.length = p)
    (hv : (A2C.trace alg policy s ro).evaluate_result.values =
      (List.range (n * p)).map fv)
    (hl : (A2C.trace alg policy s ro).evaluate_result.action_log_probs =
      (List.range (n * p)).map fl)
    (ht : t < n) (hq : q < p) :
    ((A2C.trace alg policy s ro).values.getD t []).getD q ⟨0, 0⟩ =
        fv (t * p + q) ∧
      ((A2C.trace alg policy s ro).action_log_probs.getD t []).getD q ⟨0, 0⟩ =
        fl (t * p + q) ∧
      ro.observations.dropLast.flatten.getD (t * p + q) [] =
        (ro.observations.getD t []).getD q [] ∧
      ro.masks.dropLast.flatten.getD (t * p + q) 0 =
        (ro.masks.getD t []).getD q 0 ∧
      ro.actions.flatten.getD (t * p + q) [] =
        (ro.actions.getD t []).getD q [] := by
  have hix : t * p + q < n * p := by
    have h2 : t * p + p ≤ n * p := by
      rw [← Nat.succ_mul]
      exact Nat.mul_le_mul_right p (Nat.succ_le_of_lt ht)
    omega
  have hrangeD : ∀ (f : Nat → Dual),
      ((List.range (n * p)).map f).getD (t * p + q) ⟨0, 0⟩ = f (t * p + q) := by
    intro f
    rw [List.getD_eq_getElem?_getD, List.getElem?_map, List.getElem?_range hix]
    rfl
  have hobslen : ro.observations.dropLast.length = n + 1 - 1 := by
    rw [List.length_dropLast, hobs]
  have hmasklen : ro.masks.dropLast.length = n + 1 - 1 := by
    rw [List.length_dropLast, hmask]
  refine ⟨?_, ?_, ?_, ?_, ?_⟩
  · rw [trace_values, hn, hp, hv, view2_getD _ ht hq, hrangeD]
  · rw [trace_action_log_probs, hn, hp, hl, view2_getD _ ht hq, hrangeD]
  · rw [flatten_getD ro.observations.dropLast hobsrow (by omega) hq,
      dropLast_getD ro.observations (by omega) []]
  · rw [flatten_getD ro.masks.dropLast hmaskrow (by omega) hq,
      dropLast_getD ro.masks (by omega) []]

  · rw [flatten_getD ro.actions hactrow (by omega) hq]

/-- Concrete two-process rollout used to witness C5: one step, two processes,
distinguishable observations and actions per process. -/
def c5Ro : RolloutStorage :=
  ⟨[[[1, 0], [0, 1]], [[1, 0], [0, 1]]], [[[0], [0]], [[0], [0]]],
    [[[0], [1]]], [[0, 0]], [[1, 1], [1, 1]], [[0, 0], [0, 0]]⟩

/-- Row-indexed outputs used to witness C5. -/
def c5f : Nat → Dual := fun i => ⟨i, 0⟩

/-- Concrete policy used to witness C5: output row `i` carries the value `i`,
so the reshaped entry identifies its flattened row. -/
def c5Pol : Policy := fun _ _ _ _ _ =>
  ⟨[⟨0, 0⟩, ⟨1, 0⟩], [⟨0, 0⟩, ⟨1, 0⟩], ⟨0, 0⟩⟩

/-- Witness for C5 at a concrete one-step, two-process rollout, at step 0 and
process 1. -/
theorem a2c_flatten_reshape_roundtrip_witness :
    (c5Ro.rewards.length = 1 ∧ c5Ro.rewards.headI.length = 2 ∧
        c5Ro.observations.length = 1 + 1 ∧
        (∀ r ∈ c5Ro.observations.dropLast, r.length = 2) ∧
        c5Ro.masks.length = 1 + 1 ∧
        (∀ r ∈ c5Ro.masks.dropLast, r.length = 2) ∧
        c5Ro.actions.length = 1 ∧ (∀ r ∈ c5Ro.actions, r.length = 2) ∧
        (A2C.trace (A2C.construct 1 0 0 0 0 0) c5Pol ⟨0, 0⟩
              c5Ro).evaluate_result.values = (List.range (1 * 2)).map c5f ∧
        (A2C.trace (A2C.construct 1 0 0 0 0 0) c5Pol ⟨0, 0⟩
              c5Ro).evaluate_result.action_log_probs =
          (List.range (1 * 2)).map c5f ∧
        (0 : Nat) < 1 ∧ (1 : Nat) < 2) ∧
      (((A2C.trace (A2C.construct 1 0 0 0 0 0) c5Pol ⟨0, 0⟩
              c5Ro).values.getD 0 []).getD 1 ⟨0, 0⟩ = c5f (0 * 2 + 1) ∧
        ((A2C.trace (A2C.construct 1 0 0 0 0 0) c5Pol ⟨0, 0⟩
              c5Ro).action_log_probs.getD 0 []).getD 1 ⟨0, 0⟩ =
          c5f (0 * 2 + 1) ∧
        c5Ro.observations.dropLast.flatten.getD (0 * 2 + 1) [] =
          (c5Ro.observations.getD 0 []).getD 1 [] ∧
        c5Ro.masks.dropLast.flatten.getD (0 * 2 + 1) 0 =
          (c5Ro.masks.getD 0 []).getD 1 0 ∧
        c5Ro.actions.flatten.getD (0 * 2 + 1) [] =
          (c5Ro.actions.getD 0 []).getD 1 []) :=
  ⟨⟨by decide, by decide, by decide, by decide, by decide, by decide,
      by decide, by decide, by decide, by decide, by decide, by decide⟩,
    a2c_flatten_reshape_roundtrip (A2C.construct 1 0 0 0 0 0) c5Pol ⟨0, 0⟩
      c5Ro 1 2 0 1 c5f c5f (by decide) (by decide) (by decide) (by decide)
      (by decide) (by decide) (by decide) (by decide) (by decide) (by decide)
      (by decide) (by decide)⟩

/-- Concrete one-step, one-process rollout used to witness C8. -/
def c8Ro : RolloutStorage :=
  ⟨[[[0]], [[0]]], [[[0]], [[0]]], [[[0]]], [[0]], [[1], [1]], [[0], [0]]⟩

/-- Concrete constant policy used to witness C8. -/
def c8Pol : Policy := fun _ _ _ _ _ => ⟨[⟨0, 0⟩], [⟨0, 0⟩], ⟨0, 0⟩⟩

/-- Witness for C8 at a concrete state and rollout. -/
theorem a2c_update_deterministic_witness :
    (⟨0, 0⟩ : A2CState) = ⟨0, 0⟩ ∧ c8Ro = c8Ro ∧
      ((A2C.update (A2C.construct 1 0 0 0 0 0) c8Pol probeRule ⟨0, 0⟩ c8Ro).2.2 =
          (A2C.update (A2C.construct 1 0 0 0 0 0) c8Pol probeRule ⟨0, 0⟩
              c8Ro).2.2 ∧
        (A2C.update (A2C.construct 1 0 0 0 0 0) c8Pol probeRule ⟨0, 0⟩ c8Ro).1 =
          (A2C.update (A2C.construct 1 0 0 0 0 0) c8Pol probeRule ⟨0, 0⟩
              c8Ro).1) :=
  ⟨rfl, rfl,
    a2c_update_deterministic (A2C.construct 1 0 0 0 0 0) c8Pol probeRule
      ⟨0, 0⟩ ⟨0, 0⟩ c8Ro c8Ro rfl rfl⟩

/-- C10: `A2C::update` reads only slot 0 of the hidden-state sequence
(a2c.cpp:45): two rollout storages that agree on every other tensor and on
hidden-state slot 0 produce identical diagnostics and identical parameter
updates, whatever hidden-state slots 1 through `num_steps` hold. -/
theorem a2c_update_reads_hidden_slot0 (alg : A2C) (policy : Policy)
    (rule : OptimRule) (s : A2CState) (ro1 ro2 : RolloutStorage)
    (hobs : ro1.observations = ro2.observations)
    (hact : ro1.actions = ro2.actions)
    (hrew : ro1.rewards = ro2.rewards)
    (hmask : ro1.masks = ro2.masks)
    (hret : ro1.returns = ro2.returns)
    (hh0 : ro1.hidden_states.headI = ro2.hidden_states.headI) :
    (A2C.update alg policy rule s ro1).1 = (A2C.update alg policy rule s ro2).1 ∧
      (A2C.update alg policy rule s ro1).2.2 =
        (A2C.update alg policy rule s ro2).2.2 := by
  have htr : A2C.trace alg policy s ro1 = A2C.trace alg policy s ro2 := by
    simp only [A2C.trace, hobs, hact, hrew, hmask, hret, hh0]
  constructor
  · simp only [A2C.update, htr]
  · simp only [A2C.update, htr]

/-- Rollout for the C10 witness, with hidden-state slot 1 holding `[[7]]`. -/
def c10Ro1 : RolloutStorage :=
  ⟨[[[0]], [[0]]], [[[0]], [[7]]], [[[0]]], [[0]], [[1], [1]], [[1], [0]]⟩

/-- Rollout for the C10 witness, identical to `c10Ro1` except that
hidden-state slot 1 holds `[[9]]`. -/
def c10Ro2 : RolloutStorage :=
  ⟨[[[0]], [[0]]], [[[0]], [[9]]], [[[0]]], [[0]], [[1], [1]], [[1], [0]]⟩

/-- Policy used in the C10 witness. -/
def c10Pol : Policy := fun _ _ _ _ _ => ⟨[⟨0, 0⟩], [⟨2, 3⟩], ⟨0, 0⟩⟩

/-- Witness for C10: the two rollouts differ in hidden-state slot 1 only, and
the update results coincide. -/
theorem a2c_update_reads_hidden_slot0_witness :
    (c10Ro1.observations = c10Ro2.observations ∧
        c10Ro1.actions = c10Ro2.actions ∧ c10Ro1.rewards = c10Ro2.rewards ∧
        c10Ro1.masks = c10Ro2.masks ∧ c10Ro1.returns = c10Ro2.returns ∧
        c10Ro1.hidden_states.headI = c10Ro2.hidden_states.headI ∧
        c10Ro1.hidden_states ≠ c10Ro2.hidden_states) ∧
      ((A2C.update (A2C.construct 1 0 0 0 0 0) c10Pol probeRule ⟨0, 0⟩
            c10Ro1).1 =
          (A2C.update (A2C.construct 1 0 0 0 0 0) c10Pol probeRule ⟨0, 0⟩
            c10Ro2).1 ∧
        (A2C.update (A2C.construct 1 0 0 0 0 0) c10Pol probeRule ⟨0, 0⟩
            c10Ro1).2.2 =
          (A2C.update (A2C.construct 1 0 0 0 0 0) c10Pol probeRule ⟨0, 0⟩
            c10Ro2).2.2) :=
  ⟨⟨by decide, by decide, by decide, by decide, by decide, by decide,
      by decide⟩,
    a2c_update_reads_hidden_slot0 (A2C.construct 1 0 0 0 0 0) c10Pol probeRule
      ⟨0, 0⟩ c10Ro1 c10Ro2 (by decide) (by decide) (by decide) (by decide)
      (by decide) (by decide)⟩

/-- Algorithm for C1 with a nonzero clipping threshold: `max_grad_norm` is
constructed as `1/2`. -/
def c1Alg : A2C := A2C.construct 1 0 (1 / 100) (1 / 100000) (99 / 100) (1 / 2)

/-- Policy for C1 whose log-probability gradient makes the loss gradient 3. -/
def c1Pol : Policy := fun _ _ _ _ _ => ⟨[⟨0, 0⟩], [⟨5, -3⟩], ⟨0, 0⟩⟩

/-- One-step, one-process rollout for C1 with advantage 1. -/
def c1Ro : RolloutStorage :=
  ⟨[[[0]], [[0]]], [[[0]], [[0]]], [[[0]]], [[0]], [[1], [1]], [[1], [0]]⟩

/-- C1: `A2C::update` performs no gradient clipping.  Lines 58-64 of a2c.cpp
run `zero_grad`, `backward`, `step` with nothing in between, so the gradient
handed to the optimizer step is the raw loss gradient; at this concrete input
it equals 3, which exceeds the nonzero `max_grad_norm` of `1/2` stored at
construction — the claim that the gradient norm is clipped to `max_grad_norm`
before the step fails on the code. -/
theorem a2c_gradient_not_clipped :
    (A2C.update c1Alg c1Pol probeRule ⟨0, 0⟩ c1Ro).1.theta =
        (A2C.trace c1Alg c1Pol ⟨0, 0⟩ c1Ro).loss.grad ∧
      (A2C.update c1Alg c1Pol probeRule ⟨0, 0⟩ c1Ro).1.theta = 3 ∧
      c1Alg.max_grad_norm = 1 / 2 ∧ c1Alg.max_grad_norm ≠ 0 ∧
      ¬ |(A2C.update c1Alg c1Pol probeRule ⟨0, 0⟩ c1Ro).1.theta| ≤
        c1Alg.max_grad_norm := by
  have htheta : (A2C.update c1Alg c1Pol probeRule ⟨0, 0⟩ c1Ro).1.theta = 3 := by
    norm_num [A2C.update, A2C.trace, probeRule, c1Alg, c1Pol, c1Ro,
      A2C.construct, view2, List.headI, Dual.mean, Dual.sum, Dual.pow2,
      Dual.ofConst, Dual.detach, Dual.add_def, Dual.sub_def, Dual.mul_def,
      Dual.neg_def, Dual.neg, Dual.add, Dual.sub, Dual.mul]
  have hmgn : c1Alg.max_grad_norm = 1 / 2 := rfl
  refine ⟨rfl, htheta, hmgn, ?_, ?_⟩
  · rw [hmgn]
    norm_num
  · rw [htheta, hmgn]
    norm_num

/-- Count of float parameters of the `A2C::A2C` definition (a2c.cpp:15-21):
`value_loss_coef`, `entropy_coef`, `learning_rate`, `epsilon`, `alpha`,
`max_grad_norm`. -/
def a2cRequiredFloatCount : Nat := 6

/-- The float arguments supplied by the test invocation
`A2C a2c(policy, 1.0, 1e-7, 0.1)` (a2c.cpp:77). -/
def testInvocationFloats : List ℚ := [1, 1 / 10000000, 1 / 10]

/-- C9 counterexample: the test constructs an `A2C` supplying only three of
the six float parameters, so the constructor can be invoked without supplying
every one of them — the remaining three must be defaulted by the declaration. -/
theorem a2c_constructor_defaults_counterexample :
    testInvocationFloats.length = 3 ∧ a2cRequiredFloatCount = 6 ∧
      testInvocationFloats.length ≠ a2cRequiredFloatCount :=
  ⟨rfl, rfl, by decide⟩

/-- Modelled from the spec: the declaration of `A2C::A2C` lives in
`cpprl/algorithms/a2c.h`, which is not among these sources; since the test
invocation at a2c.cpp:77 supplies only the first three float parameters and
compiles, that declaration must provide default values for `epsilon`, `alpha`
and `max_grad_norm`.  Those defaults are not visible here, so they are taken
as arguments. -/
def A2C.constructFromTest (epsilon alpha mgn : ℚ) : A2C :=
  A2C.construct 1 (1 / 10000000) (1 / 10) epsilon alpha mgn

/-- C9 amended: only `value_loss_coef`, `entropy_coef` and `learning_rate` are
required at the test call site; `epsilon`, `alpha` and `max_grad_norm` come
from header-supplied defaults, and the three supplied floats land in the first
three parameter slots. -/
theorem a2c_constructor_defaults_amended (epsilon alpha mgn : ℚ) :
    (A2C.constructFromTest epsilon alpha mgn).value_loss_coef = 1 ∧
      (A2C.constructFromTest epsilon alpha mgn).entropy_coef = 1 / 10000000 ∧
      (A2C.constructFromTest epsilon alpha
          mgn).optimizer_options.learning_rate = 1 / 10 ∧
      (A2C.constructFromTest epsilon alpha mgn).optimizer_options.eps =
        epsilon ∧
      (A2C.constructFromTest epsilon alpha mgn).optimizer_options.alpha =
        alpha ∧
      (A2C.constructFromTest epsilon alpha mgn).max_grad_norm = mgn ∧
      testInvocationFloats.length < a2cRequiredFloatCount :=
  ⟨rfl, rfl, rfl, rfl, rfl, rfl, by decide⟩

end CppRl
